import Mathlib

/-!
Shallow embedding of the gesture-controlled Christmas-tree scene
(src/index.tsx).  The numeric state of the program is modelled over ℚ
(the idealised arithmetic of the JavaScript source); the Euclidean
distance used by the gesture classifier, which takes a square root, is
modelled over ℝ with a decidability bridge through squared distances.
-/

/-- Configuration constant from src/index.tsx line 12. -/
def EXPLOSION_SPEED : ℚ := 0.20

/-- Configuration constant from src/index.tsx line 13. -/
def RETURN_SPEED : ℚ := 0.12

/-- One normalized hand landmark, the `{x, y}` shape consumed by
`getDistance` in the source. -/
structure Landmark where
  x : ℚ
  y : ℚ

/-- A detected hand: 21 ordered landmarks, index 0 being the wrist. -/
abbrev Hand := Fin 21 → Landmark

/-- Squared planar distance between two landmarks; used only to decide
comparisons between the square-root distances of the source. -/
def sqDist (p1 p2 : Landmark) : ℚ :=
  (p1.x - p2.x) ^ 2 + (p1.y - p2.y) ^ 2

/-- `getDistance` from src/index.tsx line 22:
`Math.hypot(p1.x - p2.x, p1.y - p2.y)`. -/
noncomputable def getDistance (p1 p2 : Landmark) : ℝ :=
  Real.sqrt (((p1.x - p2.x : ℚ) : ℝ) ^ 2 + ((p1.y - p2.y : ℚ) : ℝ) ^ 2)

/-- `isFingerExtended` from src/index.tsx lines 23-24: the tip is
farther from the wrist (landmark 0) than the proximal joint is. -/
def isFingerExtended (landmarks : Hand) (tipIdx pipIdx : Fin 21) : Prop :=
  getDistance (landmarks 0) (landmarks tipIdx) >
    getDistance (landmarks 0) (landmarks pipIdx)

lemma sqDist_nonneg (p1 p2 : Landmark) : 0 ≤ sqDist p1 p2 := by
  unfold sqDist
  positivity

lemma getDistance_eq_sqrt_sqDist (p1 p2 : Landmark) :
    getDistance p1 p2 = Real.sqrt ((sqDist p1 p2 : ℚ) : ℝ) := by
  unfold getDistance sqDist
  push_cast
  ring_nf

lemma isFingerExtended_iff_sqDist (l : Hand) (t p : Fin 21) :
    isFingerExtended l t p ↔ sqDist (l 0) (l p) < sqDist (l 0) (l t) := by
  unfold isFingerExtended
  rw [getDistance_eq_sqrt_sqDist, getDistance_eq_sqrt_sqDist]
  rw [gt_iff_lt, Real.sqrt_lt_sqrt_iff (by exact_mod_cast sqDist_nonneg (l 0) (l p))]
  exact_mod_cast Iff.rfl

instance (l : Hand) (t p : Fin 21) : Decidable (isFingerExtended l t p) :=
  decidable_of_iff _ (isFingerExtended_iff_sqDist l t p).symm

/-- src/index.tsx line 83: the count of extended non-thumb fingers,
`[...].filter(Boolean).length`. -/
def extendedFingers (hand : Hand) : ℕ :=
  (([decide (isFingerExtended hand 8 6), decide (isFingerExtended hand 12 10),
      decide (isFingerExtended hand 16 14), decide (isFingerExtended hand 20 18)] :
    List Bool).filter id).length

/-- src/index.tsx line 84: non-thumb count plus the thumb test. -/
def totalExtended (hand : Hand) : ℕ :=
  extendedFingers hand + (if isFingerExtended hand 4 2 then 1 else 0)

/-- src/index.tsx line 85: `(totalExtended >= 4) ? 1 : 0`. -/
def targetFactorOf (hand : Hand) : ℚ :=
  if totalExtended hand ≥ 4 then 1 else 0

/-- src/index.tsx line 88: `(0.5 - hand[0].x) * 5`. -/
def rotationHintOf (hand : Hand) : ℚ :=
  (0.5 - (hand 0).x) * 5

/-- The five (tip, proximal-joint) index pairs of the claim, in source
order: the four non-thumb fingers then the thumb. -/
def fingerPairs : List (Fin 21 × Fin 21) :=
  [(8, 6), (12, 10), (16, 14), (20, 18), (4, 2)]

/-- Number of the five finger-extended tests that pass, as the claim
phrases the classifier. -/
def numExtended (hand : Hand) : ℕ :=
  fingerPairs.countP (fun pr => decide (isFingerExtended hand pr.1 pr.2))

/-- The published interaction state: explosion-factor target and
rotation hint (`null` rotation encoded as `none`). -/
structure InteractionState where
  factor : ℚ
  rotation : Option ℚ
  deriving DecidableEq

/-- The per-cycle publication of `predict` (src/index.tsx lines 81-93),
as a function of the detection result: hand present publishes the
classifier's factor and rotation hint, empty result publishes the
no-hand sentinel. -/
def predictResult (res : Option Hand) : InteractionState :=
  match res with
  | some hand => ⟨targetFactorOf hand, some (rotationHintOf hand)⟩
  | none => ⟨0, none⟩

/-- One `predict` invocation around the try/catch of src/index.tsx
lines 75-94: a successful inference cycle publishes `predictResult`;
an inference exception is caught by the empty `catch (err) {}` block,
so nothing is published and the previously published state persists. -/
def predictCycle (prior : InteractionState) (r : Except Unit (Option Hand)) :
    InteractionState :=
  match r with
  | Except.ok res => predictResult res
  | Except.error _ => prior

/-- One `predict` frame including line 97: the resulting state plus the
fact that `requestAnimationFrame(predict)` is invoked unconditionally
afterwards (`true` = the next frame is scheduled). -/
def predictFrame (prior : InteractionState) (r : Except Unit (Option Hand)) :
    InteractionState × Bool :=
  (predictCycle prior r, true)

/-- Speed selection of src/index.tsx lines 164 and 207:
`targetFactor > 0.1 ? EXPLOSION_SPEED : RETURN_SPEED`. -/
def speedFor (targetFactor : ℚ) : ℚ :=
  if targetFactor > 0.1 then EXPLOSION_SPEED else RETURN_SPEED

/-- The frame's blend target for one axis (src/index.tsx lines 167-169):
`init + (exploded - init) * targetFactor`. -/
def blendTarget (factor init expd : ℚ) : ℚ :=
  init + (expd - init) * factor

/-- One axis of the per-frame particle update (src/index.tsx line 170):
`current += (target - current) * speed`. -/
def stepAxis (factor init expd cur : ℚ) : ℚ :=
  cur + (blendTarget factor init expd - cur) * speedFor factor

/-- The whole-buffer update of `TreeParticles.useFrame`
(src/index.tsx lines 162-171): every flat buffer index is advanced by
the per-axis law with the frame's instantaneous factor. -/
def useFrameUpdate (targetFactor : ℚ) (init expd cur : ℕ → ℚ) : ℕ → ℚ :=
  fun j => stepAxis targetFactor (init j) (expd j) (cur j)

/-- Iterated particle update of one axis under a constant published
factor, starting from `start`. -/
def runConst (factor rest expd start : ℚ) : ℕ → ℚ
  | 0 => start
  | n + 1 => stepAxis factor rest expd (runConst factor rest expd start n)

/-- Number of frames until the axis value first comes within `ε` of
`target`, under a constant factor. -/
def framesToWithin (factor rest expd start target ε : ℚ)
    (h : ∃ n, |runConst factor rest expd start n - target| < ε) : ℕ :=
  Nat.find h

/-- `THREE.MathUtils.lerp` / `Vector3.lerpVectors` on one axis:
`x + (y - x) * t`. -/
def lerp (x y t : ℚ) : ℚ :=
  x + (y - x) * t

/-- The shared decoration blend scalar `curF` of
`ComplexDecorationSystem.useFrame` (src/index.tsx line 207), advanced
once per frame from its `useRef(0)` initial value along a sequence of
published factors. -/
def curFRun (f : ℕ → ℚ) : ℕ → ℚ
  | 0 => 0
  | n + 1 =>
      curFRun f n +
        (f n - curFRun f n) *
          (if f n > 0.1 then EXPLOSION_SPEED else RETURN_SPEED)

/-- A decoration's position after `n` frames (src/index.tsx line 209):
`lerpVectors(startPos, endPos, curF)`, one axis. -/
def decoPos (f : ℕ → ℚ) (startPos endPos : ℚ) (n : ℕ) : ℚ :=
  lerp startPos endPos (curFRun f n)

/-- A particle axis after `n` frames of `TreeParticles.useFrame` under
the published factor sequence `f`, starting at its rest position. -/
def particleRun (f : ℕ → ℚ) (init expd : ℚ) : ℕ → ℚ
  | 0 => init
  | n + 1 => stepAxis (f n) init expd (particleRun f init expd n)

/-- The `Scene` pivot yaw update (src/index.tsx lines 234-238):
lerp toward `treeRotation` with smoothing 0.1 when non-null, otherwise
free spin at `delta * 0.2` per frame. -/
def sceneRotationStep (yaw : ℚ) (treeRotation : Option ℚ) (delta : ℚ) : ℚ :=
  match treeRotation with
  | some θ => lerp yaw θ 0.1
  | none => yaw + delta * 0.2

/-- `OrbitControls enableRotate={treeRotation === null}`
(src/index.tsx line 241). -/
def enableRotate (treeRotation : Option ℚ) : Bool :=
  decide (treeRotation = none)

/-- The rotation hint as a real function of the wrist's normalized x,
for the analytic parts of claim C3. -/
def rotationHint (x : ℝ) : ℝ :=
  (0.5 - x) * 5

/-! ### Helper lemmas -/

lemma speedFor_pos (f : ℚ) : 0 < speedFor f := by
  unfold speedFor EXPLOSION_SPEED RETURN_SPEED
  split <;> norm_num

lemma speedFor_lt_one (f : ℚ) : speedFor f < 1 := by
  unfold speedFor EXPLOSION_SPEED RETURN_SPEED
  split <;> norm_num

lemma speedFor_one : speedFor 1 = EXPLOSION_SPEED := by
  unfold speedFor
  norm_num

lemma speedFor_zero : speedFor 0 = RETURN_SPEED := by
  unfold speedFor
  norm_num

lemma blendTarget_one (rest expd : ℚ) : blendTarget 1 rest expd = expd := by
  unfold blendTarget
  ring

lemma blendTarget_zero (rest expd : ℚ) : blendTarget 0 rest expd = rest := by
  unfold blendTarget
  ring

lemma runConst_sub_target (factor rest expd start : ℚ) (n : ℕ) :
    runConst factor rest expd start n - blendTarget factor rest expd =
      (1 - speedFor factor) ^ n * (start - blendTarget factor rest expd) := by
  induction n with
  | zero => simp [runConst]
  | succ n ih =>
      calc runConst factor rest expd start (n + 1) - blendTarget factor rest expd
          = (1 - speedFor factor) *
              (runConst factor rest expd start n - blendTarget factor rest expd) := by
            rw [runConst, stepAxis]; ring
        _ = (1 - speedFor factor) ^ (n + 1) *
              (start - blendTarget factor rest expd) := by rw [ih]; ring

lemma runConst_abs (factor rest expd start : ℚ) (n : ℕ) :
    |runConst factor rest expd start n - blendTarget factor rest expd| =
      (1 - speedFor factor) ^ n * |start - blendTarget factor rest expd| := by
  rw [runConst_sub_target, abs_mul, abs_pow,
    abs_of_nonneg (by linarith [speedFor_lt_one factor])]

lemma totalExtended_eq_numExtended (hand : Hand) :
    totalExtended hand = numExtended hand := by
  by_cases h1 : isFingerExtended hand 8 6 <;>
    by_cases h2 : isFingerExtended hand 12 10 <;>
      by_cases h3 : isFingerExtended hand 16 14 <;>
        by_cases h4 : isFingerExtended hand 20 18 <;>
          by_cases h5 : isFingerExtended hand 4 2 <;>
            simp [totalExtended, extendedFingers, numExtended, fingerPairs,
              h1, h2, h3, h4, h5]

/-! ### Claims -/

/-- Claim C1: on every render frame the particle interpolator computes the
per-axis blend target `rest + (exploded - rest) * factor` from the
instantaneous published factor, selects `EXPLOSION_SPEED` (0.20) when the
factor exceeds 0.1 and `RETURN_SPEED` (0.12) otherwise, and advances each
axis by `current += (target - current) * speed`. -/
theorem interpolator_step_law (factor : ℚ) (init expd cur : ℕ → ℚ) (j : ℕ) :
    useFrameUpdate factor init expd cur j =
      cur j + (blendTarget factor (init j) (expd j) - cur j) * speedFor factor
    ∧ blendTarget factor (init j) (expd j) =
      init j + (expd j - init j) * factor
    ∧ speedFor factor =
      (if factor > 0.1 then EXPLOSION_SPEED else RETURN_SPEED)
    ∧ EXPLOSION_SPEED = 0.20 ∧ RETURN_SPEED = 0.12 :=
  ⟨rfl, rfl, rfl, rfl, rfl⟩

/-- Claim C2: for every detected hand, the published explosion-factor
target is 1 exactly when at least 4 of the five finger-extended tests
(tip/joint pairs (8,6), (12,10), (16,14), (20,18), (4,2)) pass and 0
otherwise, a finger counting as extended iff the wrist-to-tip distance
exceeds the wrist-to-proximal-joint distance. -/
theorem classifier_factor_law (hand : Hand) :
    (predictResult (some hand)).factor =
      (if 4 ≤ numExtended hand then 1 else 0)
    ∧ ∀ t p : Fin 21, isFingerExtended hand t p ↔
        getDistance (hand 0) (hand p) < getDistance (hand 0) (hand t) := by
  constructor
  · show targetFactorOf hand = _
    rw [targetFactorOf, totalExtended_eq_numExtended]
  · exact fun t p => Iff.rfl

/-- Claim C3: whenever a hand is present the published rotation hint is
`(0.5 - wristX) * 5`, independent of the gesture class; as a real
function of wrist x it is continuous, strictly decreasing, 0 at 0.5,
2.5 at 0 and -2.5 at 1. -/
theorem rotation_hint_law :
    (∀ hand : Hand,
      (predictResult (some hand)).rotation = some (rotationHintOf hand))
    ∧ (∀ hand : Hand,
        ((rotationHintOf hand : ℚ) : ℝ) = rotationHint ((hand 0).x : ℝ))
    ∧ Continuous rotationHint
    ∧ StrictAnti rotationHint
    ∧ rotationHint 0.5 = 0
    ∧ rotationHint 0 = 2.5
    ∧ rotationHint 1 = -2.5 := by
  refine ⟨fun hand => rfl, fun hand => ?_, ?_, ?_, ?_, ?_, ?_⟩
  · unfold rotationHint rotationHintOf
    push_cast
    ring
  · unfold rotationHint
    fun_prop
  · intro a b hab
    unfold rotationHint
    nlinarith
  · norm_num [rotationHint]
  · norm_num [rotationHint]
  · norm_num [rotationHint]

/-- Claim C4: an inference cycle whose detection result contains no hand
publishes explosion target 0 and rotation `null`, whatever was published
before. -/
theorem no_hand_sentinel (prior : InteractionState) :
    predictCycle prior (Except.ok none) = ⟨0, none⟩ :=
  rfl

/-- Claim C5, counterexample: after an inference exception the published
state is the untouched prior state, not the no-hand sentinel — with
prior factor 1 and rotation 2, the cycle does not publish `(0, null)`. -/
theorem exception_keeps_prior_state :
    (predictFrame ⟨1, some 2⟩ (Except.error ())).1 ≠
      (⟨0, none⟩ : InteractionState) := by
  decide

/-- Claim C5, amended: a per-frame inference exception is caught and
ignored — nothing is published for that cycle, so the previously
published state persists — and the loop still schedules the next
frame. -/
theorem exception_caught_loop_continues (prior : InteractionState) :
    predictFrame prior (Except.error ()) = (prior, true) :=
  rfl

/-- Claim C6: with the published factor held at 1 and the axis starting
at its rest value, the distance to the exploded value strictly decreases
every frame, equals `(1 - EXPLOSION_SPEED)^n` times the initial
distance, and eventually falls below any positive epsilon. -/
theorem explosion_convergence (rest expd ε : ℚ) (hne : rest ≠ expd)
    (hε : 0 < ε) :
    (∀ n, |runConst 1 rest expd rest (n + 1) - expd| <
        |runConst 1 rest expd rest n - expd|)
    ∧ (∀ n, |runConst 1 rest expd rest n - expd| =
        (1 - EXPLOSION_SPEED) ^ n * |rest - expd|)
    ∧ ∃ N, ∀ n ≥ N, |runConst 1 rest expd rest n - expd| < ε := by
  have hd : 0 < |rest - expd| := abs_pos.mpr (sub_ne_zero.mpr hne)
  have habs : ∀ n, |runConst 1 rest expd rest n - expd| =
      (1 - EXPLOSION_SPEED) ^ n * |rest - expd| := by
    intro n
    have h := runConst_abs 1 rest expd rest n
    rwa [blendTarget_one, speedFor_one] at h
  have hpow : ∀ n, 0 < (1 - EXPLOSION_SPEED : ℚ) ^ n * |rest - expd| :=
    fun n => mul_pos (pow_pos (by norm_num [EXPLOSION_SPEED]) n) hd
  have hlt1 : (1 - EXPLOSION_SPEED : ℚ) < 1 := by norm_num [EXPLOSION_SPEED]
  refine ⟨?_, habs, ?_⟩
  · intro n
    rw [habs, habs, pow_succ]
    calc (1 - EXPLOSION_SPEED : ℚ) ^ n * (1 - EXPLOSION_SPEED) * |rest - expd|
        = (1 - EXPLOSION_SPEED) ^ n * |rest - expd| * (1 - EXPLOSION_SPEED) := by
          ring
      _ < (1 - EXPLOSION_SPEED) ^ n * |rest - expd| * 1 :=
          mul_lt_mul_of_pos_left hlt1 (hpow n)
      _ = (1 - EXPLOSION_SPEED) ^ n * |rest - expd| := by ring
  · obtain ⟨N, hN⟩ := exists_pow_lt_of_lt_one (div_pos hε hd) hlt1
    refine ⟨N, fun n hn => ?_⟩
    rw [habs]
    have hle : (1 - EXPLOSION_SPEED : ℚ) ^ n ≤ (1 - EXPLOSION_SPEED) ^ N :=
      pow_le_pow_of_le_one (by norm_num [EXPLOSION_SPEED])
        (by norm_num [EXPLOSION_SPEED]) hn
    calc (1 - EXPLOSION_SPEED : ℚ) ^ n * |rest - expd|
        ≤ (1 - EXPLOSION_SPEED) ^ N * |rest - expd| :=
          mul_le_mul_of_nonneg_right hle (le_of_lt hd)
      _ < ε := (lt_div_iff₀ hd).mp hN

/-- Claim C6, witness at rest 0, exploded 1, epsilon 1/1000. -/
theorem explosion_convergence_witness :
    ∃ N, ∀ n ≥ N, |runConst 1 0 1 0 n - 1| < 1 / 1000 :=
  (explosion_convergence 0 1 (1 / 1000) (by norm_num) (by norm_num)).2.2

lemma return_within_one_frame : |runConst 0 0 1 1 1 - 0| < 9 / 10 := by
  have h := runConst_abs 0 0 1 1 1
  rw [blendTarget_zero, speedFor_zero] at h
  rw [h]
  norm_num [RETURN_SPEED]

lemma explode_within_one_frame : |runConst 1 0 1 0 1 - 1| < 9 / 10 := by
  have h := runConst_abs 1 0 1 0 1
  rw [blendTarget_one, speedFor_one] at h
  rw [h]
  norm_num [EXPLOSION_SPEED]

lemma explode_not_within_zero_frames : ¬ |runConst 1 0 1 0 0 - 1| < 9 / 10 := by
  have h := runConst_abs 1 0 1 0 0
  rw [blendTarget_one, speedFor_one] at h
  rw [h]
  norm_num

lemma return_within_sixty_frames :
    |runConst 0 0 1 1 60 - 0| < 1 / 1000 := by
  have h := runConst_abs 0 0 1 1 60
  rw [blendTarget_zero, speedFor_zero] at h
  rw [h]
  norm_num [RETURN_SPEED]

lemma explode_within_forty_frames :
    |runConst 1 0 1 0 40 - 1| < 1 / 1000 := by
  have h := runConst_abs 1 0 1 0 40
  rw [blendTarget_one, speedFor_one] at h
  rw [h]
  norm_num [EXPLOSION_SPEED]

/-- Claim C7, counterexample: with distance 1 and epsilon 9/10, both the
return run (factor 0 from the exploded value) and the explosion run
(factor 1 from the rest value) first come within epsilon after exactly
one frame, so the return frame count is not strictly greater. -/
theorem return_frames_not_strictly_greater :
    ¬ (framesToWithin 0 0 1 1 0 (9 / 10) ⟨1, return_within_one_frame⟩ >
        framesToWithin 1 0 1 0 1 (9 / 10) ⟨1, explode_within_one_frame⟩) := by
  have h1 : framesToWithin 0 0 1 1 0 (9 / 10) ⟨1, return_within_one_frame⟩ ≤ 1 :=
    Nat.find_min' _ return_within_one_frame
  have h2 : 0 < framesToWithin 1 0 1 0 1 (9 / 10) ⟨1, explode_within_one_frame⟩ := by
    rw [framesToWithin, Nat.find_pos]
    exact explode_not_within_zero_frames
  omega

/-- Claim C7, amended: holding the factor at 0 from the exploded value
converges back toward the rest value using `RETURN_SPEED`, with
geometric distance decay of ratio `1 - RETURN_SPEED`; and for equal
start-to-target distances and equal epsilon the number of frames needed
to come within epsilon under the return run is at least (not always
strictly greater than) the number needed under the explosion run. -/
theorem return_convergence_slower (rest expd ε : ℚ) :
    speedFor 0 = RETURN_SPEED
    ∧ (∀ n, |runConst 0 rest expd expd n - rest| =
        (1 - RETURN_SPEED) ^ n * |expd - rest|)
    ∧ ∀ (hR : ∃ n, |runConst 0 rest expd expd n - rest| < ε)
        (hE : ∃ n, |runConst 1 rest expd rest n - expd| < ε),
        framesToWithin 1 rest expd rest expd ε hE ≤
          framesToWithin 0 rest expd expd rest ε hR := by
  have habsR : ∀ n, |runConst 0 rest expd expd n - rest| =
      (1 - RETURN_SPEED) ^ n * |expd - rest| := by
    intro n
    have h := runConst_abs 0 rest expd expd n
    rwa [blendTarget_zero, speedFor_zero] at h
  have habsE : ∀ n, |runConst 1 rest expd rest n - expd| =
      (1 - EXPLOSION_SPEED) ^ n * |rest - expd| := by
    intro n
    have h := runConst_abs 1 rest expd rest n
    rwa [blendTarget_one, speedFor_one] at h
  refine ⟨speedFor_zero, habsR, fun hR hE => ?_⟩
  have hspec : |runConst 0 rest expd expd (Nat.find hR) - rest| < ε :=
    Nat.find_spec hR
  have hEat : |runConst 1 rest expd rest (Nat.find hR) - expd| < ε := by
    rw [habsE]
    rw [habsR] at hspec
    calc (1 - EXPLOSION_SPEED : ℚ) ^ Nat.find hR * |rest - expd|
        ≤ (1 - RETURN_SPEED) ^ Nat.find hR * |rest - expd| := by
          refine mul_le_mul_of_nonneg_right ?_ (abs_nonneg _)
          exact pow_le_pow_left₀ (by norm_num [EXPLOSION_SPEED])
            (by norm_num [EXPLOSION_SPEED, RETURN_SPEED]) _
      _ = (1 - RETURN_SPEED) ^ Nat.find hR * |expd - rest| := by
          rw [abs_sub_comm]
      _ < ε := hspec
  exact Nat.find_min' hE hEat

/-- Claim C7, witness at rest 0, exploded 1, epsilon 1/1000. -/
theorem return_convergence_slower_witness :
    framesToWithin 1 0 1 0 1 (1 / 1000) ⟨40, explode_within_forty_frames⟩ ≤
      framesToWithin 0 0 1 1 0 (1 / 1000) ⟨60, return_within_sixty_frames⟩ :=
  (return_convergence_slower 0 1 (1 / 1000)).2.2
    ⟨60, return_within_sixty_frames⟩ ⟨40, explode_within_forty_frames⟩

/-- Claim C8: with a non-null published rotation the pivot yaw moves by
exponential approach toward the supplied angle with smoothing constant
0.1 and camera-drag is disabled; with a null rotation the yaw strictly
increases by the fixed rate `delta * 0.2` and camera-drag is enabled;
and the lerp law applies on the very frame the rotation becomes
non-null, whatever the previous frame's mode was. -/
theorem scene_rotation_mode_switch (yaw θ delta : ℚ) (hδ : 0 < delta) :
    sceneRotationStep yaw (some θ) delta - θ = (1 - 0.1) * (yaw - θ)
    ∧ enableRotate (some θ) = false
    ∧ sceneRotationStep yaw none delta = yaw + delta * 0.2
    ∧ yaw < sceneRotationStep yaw none delta
    ∧ enableRotate none = true
    ∧ ∀ r1 : Option ℚ,
        sceneRotationStep (sceneRotationStep yaw r1 delta) (some θ) delta - θ =
          (1 - 0.1) * (sceneRotationStep yaw r1 delta - θ) := by
  refine ⟨?_, by simp [enableRotate], rfl, ?_, by simp [enableRotate],
    fun r1 => ?_⟩
  · unfold sceneRotationStep lerp
    ring
  · unfold sceneRotationStep
    nlinarith
  · unfold sceneRotationStep lerp
    ring

/-- Claim C8, witness at yaw 0, rotation 1, frame delta 1. -/
theorem scene_rotation_mode_switch_witness :
    (0 : ℚ) < sceneRotationStep 0 none 1 :=
  (scene_rotation_mode_switch 0 1 1 (by norm_num)).2.2.2.1

/-- Claim C9: under any sequence of published factors, the decorative
objects' shared-scalar update (`curF += (factor - curF) * speed`, then
position `lerp(startPos, endPos, curF)`) produces frame by frame exactly
the positions of the particle per-axis law starting at rest. -/
theorem deco_refines_particles (f : ℕ → ℚ) (startPos endPos : ℚ) (n : ℕ) :
    decoPos f startPos endPos n = particleRun f startPos endPos n := by
  induction n with
  | zero =>
      unfold decoPos curFRun lerp particleRun
      ring
  | succ n ih =>
      have key : decoPos f startPos endPos (n + 1) =
          stepAxis (f n) startPos endPos (decoPos f startPos endPos n) := by
        simp only [decoPos, curFRun, lerp, stepAxis, blendTarget, speedFor]
        ring
      rw [key, ih, particleRun]

/-- Claim C10: the published rotation is null exactly when the last
completed inference cycle detected no hand; any detected hand — open
palm included — publishes a non-null rotation, so camera-drag is
disabled whenever a hand is detected and enabled again only when no
hand is detected. -/
theorem rotation_null_iff_no_hand (prior : InteractionState)
    (res : Option Hand) :
    ((predictCycle prior (Except.ok res)).rotation = none ↔ res = none)
    ∧ (∀ hand, (predictCycle prior (Except.ok (some hand))).rotation =
        some (rotationHintOf hand))
    ∧ (∀ hand,
        enableRotate (predictCycle prior (Except.ok (some hand))).rotation =
          false)
    ∧ enableRotate (predictCycle prior (Except.ok none)).rotation = true := by
  refine ⟨?_, fun hand => rfl, fun hand => ?_, rfl⟩
  · cases res <;> simp [predictCycle, predictResult]
  · simp [predictCycle, predictResult, enableRotate]
